import Mathlib

/-!
Shallow embedding of the cloudnote note service (maqibg/cloudnote).

The repository ships two parallel implementations of the same HTTP surface:
the Cloudflare Workers variant (`src/routes/api.ts`, `src/routes/admin.ts`,
backed by D1/KV as declared in `schema.sql`) and the Node server variant
(`server/src/routes/api.ts`, backed by the better-sqlite3 adapter
`D1Database` and the NodeCache adapter `KVStore`).  Handlers of both
variants are modelled as pure functions from request parameters and the
explicit store states (note table, key-value cache) to a response together
with the successor states.  Machine randomness (password salts) and the
database clock (`CURRENT_TIMESTAMP`) are passed in as explicit arguments.
-/

namespace CloudNote

/-- Lock mode of a note; the `lock_type` column is
`TEXT CHECK(lock_type IN ('read','write'))`. -/
inductive LockType where
  | read
  | write
deriving DecidableEq, Repr

/-- A row of the `notes` table (`schema.sql` for the worker variant,
`D1Database.initTables` for the server variant).  Timestamps are modelled
as naturals; `NULL` columns are `Option`. -/
structure Note where
  path : String
  content : String
  is_locked : Bool
  lock_type : Option LockType
  password_hash : Option String
  view_count : Nat
  created_at : Nat
  updated_at : Nat
deriving DecidableEq, Repr

/-- The `notes` table in insertion order. -/
abbrev Db := List Note

/-- Point lookup `SELECT * FROM notes WHERE path = ?` followed by `.first()`. -/
def dbGet (db : Db) (p : String) : Option Note :=
  db.find? (fun n => n.path == p)

/-- An `UPDATE notes SET ... WHERE path = ?` statement: apply `f` to every
row whose `path` matches. -/
def dbModify (db : Db) (p : String) (f : Note → Note) : Db :=
  db.map (fun n => if n.path == p then f n else n)

/-- Worker save, update branch:
`UPDATE notes SET content = ?, updated_at = CURRENT_TIMESTAMP WHERE path = ?`.
The server variant runs the same statement (its timestamp trigger sets the
same column again). -/
def dbUpdateContent (now : Nat) (db : Db) (p : String) (content : String) : Db :=
  dbModify db p (fun n => { n with content := content, updated_at := now })

/-- The statement `UPDATE notes SET view_count = view_count + 1 WHERE path = ?` on the
worker database (no trigger in `schema.sql`). -/
def dbIncViewCount (db : Db) (p : String) : Db :=
  dbModify db p (fun n => { n with view_count := n.view_count + 1 })

/-- The same view-count increment on the server database, where the
`update_notes_timestamp` trigger of `D1Database.initTables` also refreshes
`updated_at`. -/
def sDbIncViewCount (now : Nat) (db : Db) (p : String) : Db :=
  dbModify db p (fun n => { n with view_count := n.view_count + 1, updated_at := now })

/-- Worker lock route:
`UPDATE notes SET is_locked = 1, lock_type = ?, password_hash = ? WHERE path = ?`
(no `updated_at`, and `schema.sql` installs no trigger). -/
def dbSetLock (db : Db) (p : String) (lt : LockType) (hash : String) : Db :=
  dbModify db p (fun n =>
    { n with is_locked := true, lock_type := some lt, password_hash := some hash })

/-- Server lock route: same statement, but the server store's trigger
refreshes `updated_at`. -/
def sDbSetLock (now : Nat) (db : Db) (p : String) (lt : LockType) (hash : String) : Db :=
  dbModify db p (fun n =>
    { n with is_locked := true, lock_type := some lt, password_hash := some hash,
             updated_at := now })

/-- Worker remove-lock route:
`UPDATE notes SET is_locked = 0, lock_type = NULL, password_hash = NULL WHERE path = ?`. -/
def dbClearLock (db : Db) (p : String) : Db :=
  dbModify db p (fun n =>
    { n with is_locked := false, lock_type := none, password_hash := none })

/-- Server remove-lock route: same statement plus the trigger's
`updated_at` refresh. -/
def sDbClearLock (now : Nat) (db : Db) (p : String) : Db :=
  dbModify db p (fun n =>
    { n with is_locked := false, lock_type := none, password_hash := none,
             updated_at := now })

/-- Insertion `INSERT INTO notes (path, content) VALUES (?, ?)`; every other column
takes its schema default (`is_locked` 0, locks `NULL`, `view_count` 0,
both timestamps `CURRENT_TIMESTAMP`). -/
def dbInsert (now : Nat) (db : Db) (p : String) (content : String) : Db :=
  db ++ [{ path := p, content := content, is_locked := false, lock_type := none,
           password_hash := none, view_count := 0, created_at := now, updated_at := now }]

/-! ### JSON values

Response bodies and cached snapshots are JSON objects; `JSON.stringify`
followed by `JSON.parse` is the identity on them, so the cache stores the
object form directly. -/

/-- A JSON value as produced by the handlers. -/
inductive JVal where
  | str : String → JVal
  | nat : Nat → JVal
  | bool : Bool → JVal
  | null : JVal
  | obj : List (String × JVal) → JVal

/-- A JSON object: ordered field list. -/
abbrev JObj := List (String × JVal)

/-- The string form of a `lock_type` column value. -/
def lockTypeStr : LockType → String
  | .read => "read"
  | .write => "write"

/-- A nullable string column as a JSON value. -/
def jStrOpt : Option String → JVal
  | none => .null
  | some s => .str s

/-- A nullable `lock_type` column as a JSON value. -/
def jLockOpt : Option LockType → JVal
  | none => .null
  | some lt => .str (lockTypeStr lt)

/-- Serialization `JSON.stringify(result)` of a full D1 row, as the worker variant caches
and returns it: every column is serialized, `password_hash` included. -/
def serializeNote (n : Note) : JObj :=
  [("path", .str n.path),
   ("content", .str n.content),
   ("is_locked", .bool n.is_locked),
   ("lock_type", jLockOpt n.lock_type),
   ("password_hash", jStrOpt n.password_hash),
   ("view_count", .nat n.view_count),
   ("created_at", .nat n.created_at),
   ("updated_at", .nat n.updated_at)]

/-- The `NoteResponse` object the server GET route builds explicitly
(`server/src/routes/api.ts`): no `password_hash` field. -/
def serializeNoteResponse (n : Note) : JObj :=
  [("exists", .bool true),
   ("content", .str n.content),
   ("is_locked", .bool n.is_locked),
   ("lock_type", jLockOpt n.lock_type),
   ("view_count", .nat n.view_count),
   ("created_at", .nat n.created_at),
   ("updated_at", .nat n.updated_at)]

/-- The `note` object the server unlock route returns on success. -/
def serializeUnlockNote (n : Note) : JObj :=
  [("content", .str n.content),
   ("lock_type", jLockOpt n.lock_type),
   ("view_count", .nat n.view_count),
   ("created_at", .nat n.created_at),
   ("updated_at", .nat n.updated_at)]

/-- An HTTP response: status code and JSON body. -/
structure Resp where
  status : Nat
  body : JObj

/-- Error response `c.json({ error: msg }, status)`. -/
def errResp (status : Nat) (msg : String) : Resp :=
  ⟨status, [("error", .str msg)]⟩

/-- Success response `c.json({ success: true })`. -/
def okResp : Resp :=
  ⟨200, [("success", .bool true)]⟩

/-! ### Key-value cache

The worker talks to Cloudflare KV directly; its operations can fail
(reject), which the route code observes as a thrown exception.  The server
wraps NodeCache in the `KVStore` adapter (`server/src/adapters/cache.ts`),
whose methods catch every backend error.  Failure of the backend is
modelled by per-operation failure flags carried in the cache state. -/

/-- State of the key-value cache: live entries `(key, value, ttlSeconds)`
plus backend failure flags for the three operations. -/
structure CacheState where
  entries : List (String × JObj × Nat)
  failGet : Bool
  failPut : Bool
  failDelete : Bool

/-- The cache with no entries and a healthy backend. -/
def emptyCache : CacheState := ⟨[], false, false, false⟩

/-- Value stored under `k`, ignoring failure flags. -/
def kvLookup (c : CacheState) (k : String) : Option JObj :=
  (c.entries.find? (fun e => e.1 == k)).map (fun e => e.2.1)

/-- TTL stored under `k`. -/
def kvTtlLookup (c : CacheState) (k : String) : Option Nat :=
  (c.entries.find? (fun e => e.1 == k)).map (fun e => e.2.2)

/-- Whether an entry is present under `k`. -/
def kvHasKey (c : CacheState) (k : String) : Bool :=
  c.entries.any (fun e => e.1 == k)

/-- Raw backend `get`: rejects when the backend is failing. -/
def kvGetRaw (c : CacheState) (k : String) : Except Unit (Option JObj) :=
  if c.failGet then .error () else .ok (kvLookup c k)

/-- Raw backend `put` with `expirationTtl`: overwrites any existing entry. -/
def kvPutRaw (c : CacheState) (k : String) (v : JObj) (ttl : Nat) :
    Except Unit CacheState :=
  if c.failPut then .error ()
  else .ok { c with entries := (k, v, ttl) :: c.entries.filter (fun e => e.1 != k) }

/-- Raw backend `delete`: idempotent. -/
def kvDeleteRaw (c : CacheState) (k : String) : Except Unit CacheState :=
  if c.failDelete then .error ()
  else .ok { c with entries := c.entries.filter (fun e => e.1 != k) }

namespace KVStore

/-- Adapter method `KVStore.get`: any backend error degrades to `null`. -/
def get (c : CacheState) (k : String) : Option JObj :=
  match kvGetRaw c k with
  | .error _ => none
  | .ok v => v

/-- Adapter method `KVStore.put`: `options?.expirationTtl || 3600`, and any backend error
is swallowed. -/
def put (c : CacheState) (k : String) (v : JObj) (ttl : Nat) : CacheState :=
  let t := if ttl == 0 then 3600 else ttl
  match kvPutRaw c k v t with
  | .error _ => c
  | .ok c' => c'

/-- Adapter method `KVStore.delete`: any backend error is swallowed. -/
def delete (c : CacheState) (k : String) : CacheState :=
  match kvDeleteRaw c k with
  | .error _ => c
  | .ok c' => c'

end KVStore

/-! ### Shared utilities (`utils/crypto.ts`) -/

/-- One character of the path character class `[a-zA-Z0-9-_]`. -/
def pathCharOk (ch : Char) : Bool :=
  ch.isAlpha || ch.isDigit || ch == '-' || ch == '_'

/-- Path validation `validatePath(path, minLength, maxLength)`: rejects empty and reserved
paths, enforces the length bounds, then the regex `^[a-zA-Z0-9-_]+$`. -/
def validatePath (p : String) (minLength maxLength : Nat) : Bool :=
  if p == "" || p == "admin" || p == "api" || p == "static" then false
  else if p.length < minLength || p.length > maxLength then false
  else p.toList.all pathCharOk

/-- Stand-in for the PBKDF2 derived key of `password` under `salt` (the
hash primitive is opaque; only its deterministic recompute-and-compare
shape matters). -/
def deriveKey (password salt : String) : String :=
  "K_" ++ salt ++ "_" ++ password

/-- Hashing `hashPassword`: random `salt` (passed explicitly here), stored as
`salt + ':' + derivedKey`. -/
def hashPassword (salt password : String) : String :=
  salt ++ ":" ++ deriveKey password salt

/-- JS `String.prototype.split(sep)` over the character list. -/
def splitOnChar (sep : Char) : List Char → List (List Char)
  | [] => [[]]
  | c :: rest =>
    match splitOnChar sep rest with
    | [] => if c == sep then [[], [c]] else [[c]]
    | h :: t => if c == sep then [] :: h :: t else (c :: h) :: t

/-- Verification `verifyPassword(password, hash)`: split the stored hash at `:` into
salt and key (`const [salt, key] = hash.split(':')`), re-derive, compare. -/
def verifyPassword (password hash : String) : Bool :=
  match splitOnChar ':' hash.toList with
  | salt :: key :: _ => String.mk key == deriveKey password (String.mk salt)
  | _ => false

/-- JS truthiness test used on optional request fields:
`!body.password` holds for a missing or empty string. -/
def strOptFalsy : Option String → Bool
  | none => true
  | some s => s == ""

/-- The adaptive cache TTL both GET routes compute:
`Math.min(86400, Math.max(300, view_count * 180))`. -/
def cacheTtl (viewCount : Nat) : Nat :=
  min 86400 (max 300 (viewCount * 180))

/-- JS `String.prototype.trim()`: strip whitespace from both ends. -/
def jsTrim (s : String) : String :=
  String.mk (((s.toList.dropWhile Char.isWhitespace).reverse.dropWhile
    Char.isWhitespace).reverse)

/-! ### Worker routes (`src/routes/api.ts`, Cloudflare variant)

Each handler becomes a function from request data and the pair of store
states to `(response, notes table, cache)`.  `c.executionCtx.waitUntil`
tasks (the view-count increment and the cache put of the GET route) are
detached: they still run, and a failure of a detached task is invisible to
the response, whereas an awaited cache operation that rejects is caught by
the handler's `try/catch`, which answers `{error: 'Database error'}, 500`. -/

/-- Route `GET /api/note/:path`, worker variant. -/
def workerGetNote (minLength maxLength : Nat) (p : String) (db : Db)
    (cache : CacheState) : Resp × Db × CacheState :=
  if !validatePath p minLength maxLength then (errResp 400 "Invalid path", db, cache)
  else
    match kvGetRaw cache ("note:" ++ p) with
    | .error _ => (errResp 500 "Database error", db, cache)
    | .ok (some cachedNote) =>
      (⟨200, cachedNote⟩, dbIncViewCount db p, cache)
    | .ok none =>
      match dbGet db p with
      | none => (⟨200, [("exists", .bool false)]⟩, db, cache)
      | some result =>
        let db' := dbIncViewCount db p
        let cache' :=
          if 2 ≤ result.view_count then
            match kvPutRaw cache ("note:" ++ p) (serializeNote result)
                (min 86400 (max 300 (result.view_count * 180))) with
            | .error _ => cache
            | .ok c' => c'
          else cache
        if result.is_locked && result.lock_type == some LockType.read then
          (⟨200, [("exists", .bool true), ("is_locked", .bool true),
                  ("lock_type", .str "read"), ("requires_password", .bool true)]⟩,
           db', cache')
        else
          (⟨200, serializeNote result⟩, db', cache')

/-- Common tail of the worker save route: persist (update or insert), then
`await CACHE.delete`. -/
def workerSaveCommit (now : Nat) (p content : String) (db : Db)
    (cache : CacheState) (rowExists : Bool) : Resp × Db × CacheState :=
  let db' := if rowExists then dbUpdateContent now db p content
             else dbInsert now db p content
  match kvDeleteRaw cache ("note:" ++ p) with
  | .error _ => (errResp 500 "Database error", db', cache)
  | .ok c' => (okResp, db', c')

/-- Route `POST /api/note/:path`, worker variant.  `content` is the request
content after `sanitizeHtml`.  Only a `write` lock gates the save. -/
def workerSaveNote (minLength maxLength now : Nat) (p content : String)
    (password : Option String) (db : Db) (cache : CacheState) :
    Resp × Db × CacheState :=
  if !validatePath p minLength maxLength then (errResp 400 "Invalid path", db, cache)
  else if jsTrim content == "" then (errResp 400 "Content cannot be empty", db, cache)
  else
    match dbGet db p with
    | some existing =>
      if existing.is_locked && existing.lock_type == some LockType.write
          && existing.password_hash.isSome then
        if strOptFalsy password then
          (errResp 403 "Password required for editing", db, cache)
        else if verifyPassword (password.getD "") (existing.password_hash.getD "") then
          workerSaveCommit now p content db cache true
        else (errResp 403 "Invalid password", db, cache)
      else workerSaveCommit now p content db cache true
    | none => workerSaveCommit now p content db cache false

/-- Route `POST /api/note/:path/unlock`, worker variant: on success the response
carries the full row (`note: note`). -/
def workerUnlockNote (p password : String) (db : Db) (cache : CacheState) :
    Resp × Db × CacheState :=
  match dbGet db p with
  | none => (errResp 404 "Note not found", db, cache)
  | some note =>
    if !note.is_locked || note.password_hash.isNone then
      (errResp 400 "Note is not locked", db, cache)
    else if !verifyPassword password (note.password_hash.getD "") then
      (errResp 403 "Invalid password", db, cache)
    else
      match kvDeleteRaw cache ("note:" ++ p) with
      | .error _ => (errResp 500 "Database error", db, cache)
      | .ok c' =>
        (⟨200, [("success", .bool true), ("note", .obj (serializeNote note))]⟩, db, c')

/-- Route `POST /api/note/:path/lock`, worker variant.  The fresh salt of
`hashPassword` is an explicit argument. -/
def workerLockNote (p : String) (password : Option String)
    (lockType : Option LockType) (salt : String) (db : Db) (cache : CacheState) :
    Resp × Db × CacheState :=
  if strOptFalsy password || lockType == none then
    (errResp 400 "Password and lock_type required", db, cache)
  else
    match dbGet db p with
    | none => (errResp 404 "Note not found", db, cache)
    | some _ =>
      let passwordHash := hashPassword salt (password.getD "")
      let db' := dbSetLock db p (lockType.getD LockType.read) passwordHash
      match kvDeleteRaw cache ("note:" ++ p) with
      | .error _ => (errResp 500 "Database error", db', cache)
      | .ok c' => (okResp, db', c')

/-- Route `DELETE /api/note/:path/lock`, worker variant. -/
def workerRemoveLock (p password : String) (db : Db) (cache : CacheState) :
    Resp × Db × CacheState :=
  match dbGet db p with
  | none => (errResp 404 "Note not found", db, cache)
  | some note =>
    if !note.is_locked || note.password_hash.isNone then
      (errResp 400 "Note is not locked", db, cache)
    else if !verifyPassword password (note.password_hash.getD "") then
      (errResp 403 "Invalid password", db, cache)
    else
      let db' := dbClearLock db p
      match kvDeleteRaw cache ("note:" ++ p) with
      | .error _ => (errResp 500 "Database error", db', cache)
      | .ok c' => (okResp, db', c')

/-- One note of an `/admin/api/import` request body (worker variant,
`src/routes/admin.ts`). -/
structure ImportNote where
  path : String
  content : String
  is_locked : Bool
  lock_type : Option LockType
  password : Option String

/-- One iteration of the worker admin import loop:
`INSERT OR REPLACE INTO notes (path, content, is_locked, lock_type,
password_hash) VALUES (?, ?, ?, ?, ?)` — the remaining columns take their
schema defaults, and `password_hash` is set only when a password was sent. -/
def workerImportOne (now : Nat) (salt : String) (db : Db) (n : ImportNote) : Db :=
  let passwordHash := if strOptFalsy n.password then none
                      else some (hashPassword salt (n.password.getD ""))
  let row : Note :=
    { path := n.path, content := n.content, is_locked := n.is_locked,
      lock_type := n.lock_type, password_hash := passwordHash,
      view_count := 0, created_at := now, updated_at := now }
  db.filter (fun m => m.path != n.path) ++ [row]

/-! ### Server routes (`server/src/routes/api.ts`, Node variant)

These handlers use the `KVStore` adapter, so cache operations never throw;
there is no `try/catch` around them.  The better-sqlite3 store installs the
`update_notes_timestamp` trigger, so every `UPDATE` also refreshes
`updated_at` (the `sDb…` operations). -/

/-- Route `GET /api/note/:path`, server variant: the read-lock check precedes
both the view-count increment and the cache put, and the cached/returned
object is the explicit `NoteResponse`. -/
def serverGetNote (minLength maxLength now : Nat) (p : String) (db : Db)
    (cache : CacheState) : Resp × Db × CacheState :=
  if !validatePath p minLength maxLength then (errResp 400 "Invalid path", db, cache)
  else
    match KVStore.get cache ("note:" ++ p) with
    | some cachedNote =>
      (⟨200, cachedNote⟩, sDbIncViewCount now db p, cache)
    | none =>
      match dbGet db p with
      | none => (⟨200, [("exists", .bool false)]⟩, db, cache)
      | some result =>
        if result.is_locked && result.lock_type == some LockType.read then
          (⟨200, [("exists", .bool true), ("requires_password", .bool true),
                  ("lock_type", .str "read")]⟩, db, cache)
        else
          let response := serializeNoteResponse result
          let db' := sDbIncViewCount now db p
          let cache' :=
            if 2 ≤ result.view_count then
              KVStore.put cache ("note:" ++ p) response
                (min 86400 (max 300 (result.view_count * 180)))
            else cache
          (⟨200, response⟩, db', cache')

/-- Route `POST /api/note/:path`, server variant: no empty-content check, any
lock (read or write) gates the save, and the cache is invalidated only in
the update branch. -/
def serverSaveNote (minLength maxLength now : Nat) (p content : String)
    (password : Option String) (db : Db) (cache : CacheState) :
    Resp × Db × CacheState :=
  if !validatePath p minLength maxLength then (errResp 400 "Invalid path", db, cache)
  else
    match dbGet db p with
    | some existing =>
      if existing.is_locked && existing.password_hash.isSome then
        if strOptFalsy password then (errResp 403 "Password required", db, cache)
        else if verifyPassword (password.getD "") (existing.password_hash.getD "") then
          (okResp, dbUpdateContent now db p content,
           KVStore.delete cache ("note:" ++ p))
        else (errResp 403 "Invalid password", db, cache)
      else
        (okResp, dbUpdateContent now db p content,
         KVStore.delete cache ("note:" ++ p))
    | none =>
      (okResp, dbInsert now db p content, cache)

/-- Route `POST /api/note/:path/unlock`, server variant: the success response
strips `password_hash` (and `path`, `is_locked`) from the note object. -/
def serverUnlockNote (p password : String) (db : Db) (cache : CacheState) :
    Resp × Db × CacheState :=
  match dbGet db p with
  | none => (errResp 404 "Note not found or not locked", db, cache)
  | some note =>
    if !note.is_locked || note.password_hash.isNone then
      (errResp 404 "Note not found or not locked", db, cache)
    else if !verifyPassword password (note.password_hash.getD "") then
      (errResp 403 "Invalid password", db, cache)
    else
      (⟨200, [("success", .bool true), ("note", .obj (serializeUnlockNote note))]⟩,
       db, KVStore.delete cache ("note:" ++ p))

/-- Route `POST /api/note/:path/lock`, server variant. -/
def serverLockNote (now : Nat) (p : String) (password : Option String)
    (lockType : Option LockType) (salt : String) (db : Db) (cache : CacheState) :
    Resp × Db × CacheState :=
  if strOptFalsy password || lockType == none then
    (errResp 400 "Password and lock_type required", db, cache)
  else
    match dbGet db p with
    | none => (errResp 404 "Note not found", db, cache)
    | some _ =>
      let passwordHash := hashPassword salt (password.getD "")
      (okResp, sDbSetLock now db p (lockType.getD LockType.read) passwordHash,
       KVStore.delete cache ("note:" ++ p))

/-- Route `DELETE /api/note/:path/lock`, server variant. -/
def serverRemoveLock (now : Nat) (p password : String) (db : Db)
    (cache : CacheState) : Resp × Db × CacheState :=
  match dbGet db p with
  | none => (errResp 404 "Note not found or not locked", db, cache)
  | some note =>
    if !note.is_locked || note.password_hash.isNone then
      (errResp 404 "Note not found or not locked", db, cache)
    else if !verifyPassword password (note.password_hash.getD "") then
      (errResp 403 "Invalid password", db, cache)
    else
      (okResp, sDbClearLock now db p, KVStore.delete cache ("note:" ++ p))

/-! ### Local blob storage (`server/src/adapters/storage.ts`, `R2Storage`) -/

/-- The character class `[a-zA-Z0-9-_./]` kept by `getFilePath`'s
sanitizer — note that `.` and `/` are kept. -/
def safeChar (c : Char) : Bool :=
  c.isAlpha || c.isDigit || c == '-' || c == '_' || c == '.' || c == '/'

/-- Sanitizer `key.replace(/[^a-zA-Z0-9-_./]/g, '_')`. -/
def sanitizeKey (k : String) : String :=
  String.mk (k.toList.map (fun c => if safeChar c then c else '_'))

/-- Split a POSIX path into segments. -/
def splitSegs (s : String) : List String :=
  (splitOnChar '/' s.toList).map String.mk

/-- POSIX normalization of an absolute path's segment list, as performed
by Node's `path.join`: drop empty and `.` segments, resolve `..` against
the accumulated prefix (at the root, `..` is dropped). -/
def normSegs (segs : List String) : List String :=
  segs.foldl
    (fun acc s =>
      if s == "" || s == "." then acc
      else if s == ".." then acc.dropLast
      else acc ++ [s])
    []

/-- Node `path.join(base, rel)` for an absolute `base`. -/
def pathJoin (base rel : String) : String :=
  "/" ++ String.intercalate "/" (normSegs (splitSegs base ++ splitSegs rel))

/-- Mapping `R2Storage.getFilePath(key)` with base directory `base`:
sanitize the key, then join it under the base. -/
def getFilePath (base key : String) : String :=
  pathJoin base (sanitizeKey key)

/-- Whether physical path `p` lies inside the storage base directory. -/
def insideBase (base p : String) : Bool :=
  p == base || List.isPrefixOf (base ++ "/").toList p.toList

/-! ### Invariant and observation helpers -/

/-- The P4 lock coherence invariant of one row, as a boolean. -/
def lockInvB (n : Note) : Bool :=
  ((n.is_locked == false) == n.lock_type.isNone)
    && ((n.is_locked == false) == n.password_hash.isNone)

/-- P4 over the whole table. -/
def dbInvB (db : Db) : Bool :=
  db.all lockInvB

/-- Whether a JSON object has a top-level field named `k`. -/
def objHasKeyB (o : JObj) (k : String) : Bool :=
  o.any (fun f => f.1 == k)

/-- Whether a JSON object carries, at top level, a `password_hash` field
holding the string `h`. -/
def objHasHashValB (o : JObj) (h : String) : Bool :=
  o.any (fun f =>
    f.1 == "password_hash" &&
      match f.2 with
      | .str s => s == h
      | _ => false)

/-- Boolean implication, used to state success-conditioned properties
without `Prop` binders. -/
def bimp (a b : Bool) : Bool :=
  !a || b

/-- Top-level field access on a JSON object. -/
def objField (o : JObj) (k : String) : Option JVal :=
  (o.find? (fun f => f.1 == k)).map (fun f => f.2)

/-- Whether an optional JSON value is an object carrying a
`password_hash` field with string value `h`. -/
def jvalObjHasHashValB : Option JVal → String → Bool
  | some (.obj o), h => objHasHashValB o h
  | _, _ => false

/-- Observe a field of an optional note; absent note observes `false`. -/
def noteObsB (o : Option Note) (f : Note → Bool) : Bool :=
  (o.map f).getD false

end CloudNote

namespace CloudNote

/-! ### Helper lemmas -/

theorem lockInvB_set_fields (n : Note) (lt : LockType) (hsh : String) :
    lockInvB { n with is_locked := true, lock_type := some lt,
                      password_hash := some hsh } = true := rfl

theorem lockInvB_set_fields_now (n : Note) (lt : LockType) (hsh : String) (t : Nat) :
    lockInvB { n with is_locked := true, lock_type := some lt,
                      password_hash := some hsh, updated_at := t } = true := rfl

theorem lockInvB_clear_fields (n : Note) :
    lockInvB { n with is_locked := false, lock_type := none,
                      password_hash := none } = true := rfl

theorem lockInvB_clear_fields_now (n : Note) (t : Nat) :
    lockInvB { n with is_locked := false, lock_type := none,
                      password_hash := none, updated_at := t } = true := rfl

theorem dbInvB_dbModify {db : Db} (p : String) {f : Note → Note}
    (hinv : dbInvB db = true)
    (hf : ∀ n, lockInvB n = true → lockInvB (f n) = true) :
    dbInvB (dbModify db p f) = true := by
  induction db with
  | nil => rfl
  | cons m t ih =>
    simp only [dbInvB, dbModify, List.map_cons, List.all_cons,
      Bool.and_eq_true] at hinv ⊢
    refine ⟨?_, ih hinv.2⟩
    by_cases h : m.path == p
    · simpa [h] using hf m hinv.1
    · simpa [h] using hinv.1

theorem dbInvB_append {db₁ db₂ : Db}
    (h₁ : dbInvB db₁ = true) (h₂ : dbInvB db₂ = true) :
    dbInvB (db₁ ++ db₂) = true := by
  simp only [dbInvB, List.all_append, Bool.and_eq_true]
  exact ⟨h₁, h₂⟩

theorem dbInvB_filter {db : Db} (q : Note → Bool) (h : dbInvB db = true) :
    dbInvB (db.filter q) = true := by
  simp only [dbInvB, List.all_eq_true] at h ⊢
  exact fun n hn => h n (List.mem_filter.mp hn).1

theorem dbInvB_dbUpdateContent {db : Db} (now : Nat) (p c : String)
    (h : dbInvB db = true) : dbInvB (dbUpdateContent now db p c) = true :=
  dbInvB_dbModify p h (fun _ hn => hn)

theorem dbInvB_dbIncViewCount {db : Db} (p : String)
    (h : dbInvB db = true) : dbInvB (dbIncViewCount db p) = true :=
  dbInvB_dbModify p h (fun _ hn => hn)

theorem dbInvB_sDbIncViewCount {db : Db} (now : Nat) (p : String)
    (h : dbInvB db = true) : dbInvB (sDbIncViewCount now db p) = true :=
  dbInvB_dbModify p h (fun _ hn => hn)

theorem dbInvB_dbInsert {db : Db} (now : Nat) (p c : String)
    (h : dbInvB db = true) : dbInvB (dbInsert now db p c) = true :=
  dbInvB_append h rfl

theorem dbInvB_dbSetLock {db : Db} (p : String) (lt : LockType) (hsh : String)
    (h : dbInvB db = true) : dbInvB (dbSetLock db p lt hsh) = true :=
  dbInvB_dbModify p h (fun n _ => lockInvB_set_fields n lt hsh)

theorem dbInvB_sDbSetLock {db : Db} (now : Nat) (p : String) (lt : LockType)
    (hsh : String) (h : dbInvB db = true) :
    dbInvB (sDbSetLock now db p lt hsh) = true :=
  dbInvB_dbModify p h (fun n _ => lockInvB_set_fields_now n lt hsh now)

theorem dbInvB_dbClearLock {db : Db} (p : String)
    (h : dbInvB db = true) : dbInvB (dbClearLock db p) = true :=
  dbInvB_dbModify p h (fun n _ => lockInvB_clear_fields n)

theorem dbInvB_sDbClearLock {db : Db} (now : Nat) (p : String)
    (h : dbInvB db = true) : dbInvB (sDbClearLock now db p) = true :=
  dbInvB_dbModify p h (fun n _ => lockInvB_clear_fields_now n now)

theorem dbGet_path_beq {db : Db} {q : String} {n : Note}
    (h : dbGet db q = some n) : (n.path == q) = true := by
  unfold dbGet at h
  simpa using List.find?_some h

theorem dbGet_dbModify (db : Db) (p : String) (f : Note → Note)
    (hf : ∀ m, (f m).path = m.path) :
    dbGet (dbModify db p f) p =
      (dbGet db p).map (fun m => if m.path == p then f m else m) := by
  induction db with
  | nil => rfl
  | cons m t ih =>
    simp only [dbModify, List.map_cons, dbGet] at ih ⊢
    cases h : m.path == p with
    | true =>
      have h' : m.path = p := by simpa using h
      have hfm : ((f m).path == p) = true := by rw [hf]; exact h
      simp [List.find?_cons, h, h', hfm]
    | false =>
      simp [List.find?_cons, h, -List.find?_map] at ih ⊢
      exact ih

theorem dbGet_dbUpdateContent (now : Nat) (db : Db) (p c : String) :
    dbGet (dbUpdateContent now db p c) p =
      (dbGet db p).map (fun m => if m.path == p
        then { m with content := c, updated_at := now } else m) :=
  dbGet_dbModify db p _ (fun m => rfl)

theorem dbGet_dbSetLock (db : Db) (p : String) (lt : LockType) (hsh : String) :
    dbGet (dbSetLock db p lt hsh) p =
      (dbGet db p).map (fun m => if m.path == p
        then { m with is_locked := true, lock_type := some lt,
                      password_hash := some hsh } else m) :=
  dbGet_dbModify db p _ (fun m => rfl)

theorem dbGet_sDbSetLock (now : Nat) (db : Db) (p : String) (lt : LockType)
    (hsh : String) :
    dbGet (sDbSetLock now db p lt hsh) p =
      (dbGet db p).map (fun m => if m.path == p
        then { m with is_locked := true, lock_type := some lt,
                      password_hash := some hsh, updated_at := now } else m) :=
  dbGet_dbModify db p _ (fun m => rfl)

theorem dbGet_dbClearLock (db : Db) (p : String) :
    dbGet (dbClearLock db p) p =
      (dbGet db p).map (fun m => if m.path == p
        then { m with is_locked := false, lock_type := none,
                      password_hash := none } else m) :=
  dbGet_dbModify db p _ (fun m => rfl)

theorem dbGet_sDbClearLock (now : Nat) (db : Db) (p : String) :
    dbGet (sDbClearLock now db p) p =
      (dbGet db p).map (fun m => if m.path == p
        then { m with is_locked := false, lock_type := none,
                      password_hash := none, updated_at := now } else m) :=
  dbGet_dbModify db p _ (fun m => rfl)

theorem any_filter_ne (l : List (String × JObj × Nat)) (k : String) :
    (l.filter (fun e => e.1 != k)).any (fun e => e.1 == k) = false := by
  induction l with
  | nil => rfl
  | cons e t ih =>
    cases h : e.1 == k <;> simp [List.filter_cons, h, ih, bne]

theorem kvHasKey_KVStore_delete (c : CacheState) (k : String)
    (h : c.failDelete = false) : kvHasKey (KVStore.delete c k) k = false := by
  simp [KVStore.delete, kvDeleteRaw, h, kvHasKey, any_filter_ne]

theorem kvHasKey_deleteRaw_ok {c c' : CacheState} {k : String}
    (h : kvDeleteRaw c k = Except.ok c') : kvHasKey c' k = false := by
  unfold kvDeleteRaw at h
  split at h
  · exact absurd h (by simp)
  · injection h with h
    subst h
    simp [kvHasKey, any_filter_ne]

/-- C1: claimed — a GET on a `read`-locked note (no prior unlock) never
includes `content` in the body and never creates a cache entry under
`note:<path>`.  The worker variant violates this: on a cache-miss read of a
read-locked note with pre-increment `view_count ≥ 2`, the handler caches
the full serialized row before the lock check, and the next GET answers
straight from the cache with the full row, `content` included, without any
password.  Shown on a concrete read-locked note at path `ab`. -/
theorem c1_read_lock_cached_and_leaked :
    let n : Note := { path := "ab", content := "secret", is_locked := true,
                      lock_type := some LockType.read,
                      password_hash := some (hashPassword "s" "p1"),
                      view_count := 2, created_at := 1, updated_at := 1 }
    let step1 := workerGetNote 1 4 "ab" [n] emptyCache
    let step2 := workerGetNote 1 4 "ab" step1.2.1 step1.2.2
    objHasKeyB step1.1.body "content" = false ∧
    kvHasKey step1.2.2 "note:ab" = true ∧
    step2.1.status = 200 ∧
    objHasKeyB step2.1.body "content" = true := by
  decide

/-- C2: claimed — no public note API response body and no cached
snapshot ever contains the note's `password_hash`.  The worker variant
violates this three ways on a write-locked note: the GET response is the
raw row (hash included), the cached snapshot is the same raw row, and the
unlock success response nests the raw row under `note`.  Shown on a
concrete write-locked note whose stored hash is `hashPassword "s" "p1"`. -/
theorem c2_password_hash_leaked :
    let n : Note := { path := "ab", content := "v", is_locked := true,
                      lock_type := some LockType.write,
                      password_hash := some (hashPassword "s" "p1"),
                      view_count := 2, created_at := 1, updated_at := 1 }
    let h := hashPassword "s" "p1"
    let got := workerGetNote 1 4 "ab" [n] emptyCache
    objHasHashValB got.1.body h = true ∧
    (kvLookup got.2.2 "note:ab").map (fun o => objHasHashValB o h) = some true ∧
    jvalObjHasHashValB
      (objField (workerUnlockNote "ab" "p1" [n] emptyCache).1.body "note") h = true := by
  decide

/-- C3: claimed — a save on an existing locked note (read or write
lock) is rejected with a 403 unless the password verifies; in particular a
read-locked note can never be overwritten without the password.  The
worker save route only gates `lock_type = 'write'`: a password-less save
on a read-locked note succeeds and replaces the content. -/
theorem c3_read_lock_save_bypassed :
    let n : Note := { path := "ab", content := "old", is_locked := true,
                      lock_type := some LockType.read,
                      password_hash := some (hashPassword "s" "p1"),
                      view_count := 0, created_at := 1, updated_at := 1 }
    let r := workerSaveNote 1 4 7 "ab" "new" none [n] emptyCache
    r.1.status = 200 ∧
    (dbGet r.2.1 "ab").map (fun m => m.content) = some "new" := by
  decide

/-- C4: claimed — a save of empty/whitespace-only sanitized content to
a path with no existing row is rejected with a 400 and creates no row.
The server save route has no empty-content check: a whitespace-only save
on a fresh path answers `success` and inserts a row whose content is the
whitespace string. -/
theorem c4_blank_note_created_on_server :
    let r : Resp × Db × CacheState := serverSaveNote 1 20 7 "zz" "   " none [] emptyCache
    jsTrim "   " = "" ∧
    r.1.status = 200 ∧
    dbGet r.2.1 "zz" = some { path := "zz", content := "   ",
                              is_locked := false, lock_type := none,
                              password_hash := none, view_count := 0,
                              created_at := 7, updated_at := 7 } := by
  decide

/-- C5 counterexample: the admin import writes
`INSERT OR REPLACE INTO notes (path, content, is_locked, lock_type,
password_hash)` with `password_hash` null whenever no password is supplied,
so importing `{path: a, content: x, is_locked: true, lock_type: read}`
without a password yields a row with `is_locked = true` but
`password_hash` absent, breaking the P4 lock invariant. -/
theorem c5_admin_import_breaks_lock_invariant :
    dbInvB (workerImportOne 0 "s" []
      { path := "a", content := "x", is_locked := true,
        lock_type := some LockType.read, password := none }) = false := by
  decide

/-- C6 counterexample: the server save route deletes `note:<path>`
only in its update branch; a successful first-time save (no existing row)
performs no cache invalidation, so a pre-existing cache entry under that
key survives the mutation. -/
theorem c6_server_insert_save_keeps_stale_cache :
    let c : CacheState :=
      ⟨[("note:ab", [("exists", JVal.bool true)], 600)], false, false, false⟩
    let r := serverSaveNote 1 20 7 "ab" "hi" none [] c
    r.1.status = 200 ∧ kvHasKey r.2.2 "note:ab" = true := by
  decide

/-- C6 (amended): after every successful public mutation the cache key
`note:<path>` is absent — unconditionally for the worker save and for
lock/unlock/remove-lock of both variants, but for the server save only
when a row already existed (the fresh-insert branch, shown by the
counterexample, performs no invalidation).  The cache backend is assumed
healthy for the delete (a swallowed delete failure leaves the entry, which
the spec treats as accepted staleness). -/
theorem c6_mutations_invalidate_cache
    (minLength maxLength now : Nat) (p content salt pw : String)
    (password : Option String) (lt : Option LockType)
    (db : Db) (cache : CacheState)
    (hfd : cache.failDelete = false) :
    bimp ((workerSaveNote minLength maxLength now p content password db cache).1.status == 200)
      (!kvHasKey (workerSaveNote minLength maxLength now p content password db cache).2.2
        ("note:" ++ p)) = true ∧
    bimp (((serverSaveNote minLength maxLength now p content password db cache).1.status == 200)
        && (dbGet db p).isSome)
      (!kvHasKey (serverSaveNote minLength maxLength now p content password db cache).2.2
        ("note:" ++ p)) = true ∧
    bimp ((workerLockNote p password lt salt db cache).1.status == 200)
      (!kvHasKey (workerLockNote p password lt salt db cache).2.2 ("note:" ++ p)) = true ∧
    bimp ((serverLockNote now p password lt salt db cache).1.status == 200)
      (!kvHasKey (serverLockNote now p password lt salt db cache).2.2 ("note:" ++ p)) = true ∧
    bimp ((workerUnlockNote p pw db cache).1.status == 200)
      (!kvHasKey (workerUnlockNote p pw db cache).2.2 ("note:" ++ p)) = true ∧
    bimp ((serverUnlockNote p pw db cache).1.status == 200)
      (!kvHasKey (serverUnlockNote p pw db cache).2.2 ("note:" ++ p)) = true ∧
    bimp ((workerRemoveLock p pw db cache).1.status == 200)
      (!kvHasKey (workerRemoveLock p pw db cache).2.2 ("note:" ++ p)) = true ∧
    bimp ((serverRemoveLock now p pw db cache).1.status == 200)
      (!kvHasKey (serverRemoveLock now p pw db cache).2.2 ("note:" ++ p)) = true := by
  refine ⟨?_, ?_, ?_, ?_, ?_, ?_, ?_, ?_⟩
  · unfold workerSaveNote workerSaveCommit
    repeat' split
    all_goals
      first
        | (simp [bimp, errResp]; done)
        | (rename_i c' heq
           simp [bimp, okResp, kvHasKey_deleteRaw_ok heq]
           done)
        | simp_all
  · unfold serverSaveNote
    repeat' split
    all_goals simp_all [bimp, errResp, okResp, kvHasKey_KVStore_delete, hfd]
  · unfold workerLockNote
    repeat' split
    all_goals
      first
        | (simp [bimp, errResp]; done)
        | (rename_i c' heq
           simp [bimp, okResp, kvHasKey_deleteRaw_ok heq]
           done)
        | simp_all
  · unfold serverLockNote
    repeat' split
    all_goals simp_all [bimp, errResp, okResp, kvHasKey_KVStore_delete, hfd]
  · unfold workerUnlockNote
    repeat' split
    all_goals
      first
        | (simp [bimp, errResp]; done)
        | (rename_i c' heq
           simp [bimp, okResp, kvHasKey_deleteRaw_ok heq]
           done)
        | simp_all
  · unfold serverUnlockNote
    repeat' split
    all_goals simp_all [bimp, errResp, okResp, kvHasKey_KVStore_delete, hfd]
  · unfold workerRemoveLock
    repeat' split
    all_goals
      first
        | (simp [bimp, errResp]; done)
        | (rename_i c' heq
           simp [bimp, okResp, kvHasKey_deleteRaw_ok heq]
           done)
        | simp_all
  · unfold serverRemoveLock
    repeat' split
    all_goals simp_all [bimp, errResp, okResp, kvHasKey_KVStore_delete, hfd]

/-- Witness for `c6_mutations_invalidate_cache` at a concrete save. -/
theorem c6_mutations_invalidate_cache_witness :
    emptyCache.failDelete = false ∧
    bimp ((workerSaveNote 1 4 9 "ab" "hi" none [] emptyCache).1.status == 200)
      (!kvHasKey (workerSaveNote 1 4 9 "ab" "hi" none [] emptyCache).2.2
        ("note:" ++ "ab")) = true :=
  ⟨rfl,
   (c6_mutations_invalidate_cache 1 4 9 "ab" "hi" "s" "p1" none none [] emptyCache rfl).1⟩

/-- C7: on a cache-miss read of an existing viewable note (not
read-locked), both GET routes create a cache entry exactly when the
pre-increment `view_count` is at least 2, with TTL
`min(86400, max(300, view_count * 180))`; the TTL has floor 300, ceiling
86400, and is non-decreasing in the view count. -/
theorem c7_cache_gating_and_ttl
    (minLength maxLength now a b : Nat) (p : String) (db : Db)
    (cache : CacheState) (n : Note)
    (hval : validatePath p minLength maxLength = true)
    (hfg : cache.failGet = false) (hfp : cache.failPut = false)
    (hmiss : kvLookup cache ("note:" ++ p) = none)
    (hrow : dbGet db p = some n)
    (hview : (n.is_locked && n.lock_type == some LockType.read) = false)
    (hab : a ≤ b) :
    (serverGetNote minLength maxLength now p db cache).2.2 =
      (if 2 ≤ n.view_count then
        { cache with entries :=
            ("note:" ++ p, serializeNoteResponse n, cacheTtl n.view_count)
              :: cache.entries.filter (fun e => e.1 != "note:" ++ p) }
       else cache) ∧
    (workerGetNote minLength maxLength p db cache).2.2 =
      (if 2 ≤ n.view_count then
        { cache with entries :=
            ("note:" ++ p, serializeNote n, cacheTtl n.view_count)
              :: cache.entries.filter (fun e => e.1 != "note:" ++ p) }
       else cache) ∧
    300 ≤ cacheTtl n.view_count ∧
    cacheTtl n.view_count ≤ 86400 ∧
    cacheTtl a ≤ cacheTtl b := by
  have hfloor : ∀ v : Nat, 300 ≤ cacheTtl v := fun v =>
    le_min (by omega) (le_max_left _ _)
  have h0 : ∀ v : Nat, (min 86400 (max 300 (v * 180)) == 0) = false := by
    intro v
    rw [beq_eq_false_iff_ne]
    have := hfloor v
    unfold cacheTtl at this
    omega
  refine ⟨?_, ?_, hfloor n.view_count, min_le_left _ _, ?_⟩
  · unfold serverGetNote
    rw [hval]
    simp only [Bool.not_true, Bool.false_eq_true, if_false]
    have hget : KVStore.get cache ("note:" ++ p) = none := by
      simp [KVStore.get, kvGetRaw, hfg, hmiss]
    rw [hget, hrow]
    simp only [hview, Bool.false_eq_true, if_false]
    by_cases hvc : 2 ≤ n.view_count
    · simp [hvc, KVStore.put, kvPutRaw, hfp, h0 n.view_count, cacheTtl]
    · simp [hvc]
  · unfold workerGetNote
    rw [hval]
    simp only [Bool.not_true, Bool.false_eq_true, if_false]
    have hget : kvGetRaw cache ("note:" ++ p) = Except.ok none := by
      simp [kvGetRaw, hfg, hmiss]
    rw [hget, hrow]
    by_cases hvc : 2 ≤ n.view_count
    · simp [hvc, hview, kvPutRaw, hfp, cacheTtl]
    · simp [hvc, hview]
  · exact min_le_min (le_refl _)
      (max_le_max (le_refl _) (Nat.mul_le_mul_right _ hab))

/-- Witness for `c7_cache_gating_and_ttl` on a five-view unlocked note. -/
theorem c7_cache_gating_and_ttl_witness :
    validatePath "ab" 1 4 = true ∧
    emptyCache.failGet = false ∧
    emptyCache.failPut = false ∧
    kvLookup emptyCache ("note:" ++ "ab") = none ∧
    dbGet [({ path := "ab", content := "c", is_locked := false,
              lock_type := none, password_hash := none, view_count := 5,
              created_at := 1, updated_at := 1 } : Note)] "ab" =
      some { path := "ab", content := "c", is_locked := false,
             lock_type := none, password_hash := none, view_count := 5,
             created_at := 1, updated_at := 1 } ∧
    (2:Nat) ≤ 3 ∧
    (serverGetNote 1 4 9 "ab"
        [({ path := "ab", content := "c", is_locked := false,
            lock_type := none, password_hash := none, view_count := 5,
            created_at := 1, updated_at := 1 } : Note)] emptyCache).2.2 =
      (if 2 ≤ (5:Nat) then
        { emptyCache with entries :=
            ("note:" ++ "ab",
             serializeNoteResponse
               { path := "ab", content := "c", is_locked := false,
                 lock_type := none, password_hash := none, view_count := 5,
                 created_at := 1, updated_at := 1 },
             cacheTtl 5) :: emptyCache.entries.filter (fun e => e.1 != "note:" ++ "ab") }
       else emptyCache) :=
  ⟨by decide, rfl, rfl, rfl, rfl, by decide,
   (c7_cache_gating_and_ttl 1 4 9 2 3 "ab"
      [({ path := "ab", content := "c", is_locked := false,
          lock_type := none, password_hash := none, view_count := 5,
          created_at := 1, updated_at := 1 } : Note)] emptyCache
      { path := "ab", content := "c", is_locked := false,
        lock_type := none, password_hash := none, view_count := 5,
        created_at := 1, updated_at := 1 }
      (by decide) rfl rfl rfl rfl (by decide) (by decide)).1⟩

/-- C8 counterexample: the worker lock route runs
`UPDATE notes SET is_locked = 1, lock_type = ?, password_hash = ? WHERE
path = ?` and `schema.sql` installs no timestamp trigger, so a successful
lock — a lock-state mutation — leaves `updated_at` at its prior value
(here 5) instead of the current time. -/
theorem c8_worker_lock_leaves_updated_at :
    let n : Note := { path := "ab", content := "c", is_locked := false,
                      lock_type := none, password_hash := none,
                      view_count := 0, created_at := 1, updated_at := 5 }
    let r := workerLockNote "ab" (some "pw") (some LockType.write) "s" [n] emptyCache
    r.1.status = 200 ∧
    (dbGet r.2.1 "ab").map (fun m => m.is_locked) = some true ∧
    (dbGet r.2.1 "ab").map (fun m => m.updated_at) = some 5 := by
  decide

/-- C8 (amended): on a note that exists at `p`, every successful
content or lock-state mutation behaves as follows — in the server variant,
save-update, lock and remove-lock all set `updated_at` to the store's
current time (explicitly or through the `update_notes_timestamp` trigger)
while fields not named by the update keep their prior values; in the
worker variant the save-update sets `updated_at` explicitly, but lock and
remove-lock leave `updated_at` unchanged (no trigger in `schema.sql`),
with all unnamed fields likewise retained. -/
theorem c8_updated_at_refresh
    (minLength maxLength now : Nat) (p content salt pw : String)
    (password : Option String) (lt : Option LockType)
    (db : Db) (cache : CacheState) (n : Note)
    (hrow : dbGet db p = some n) :
    bimp ((serverLockNote now p password lt salt db cache).1.status == 200)
      (noteObsB (dbGet (serverLockNote now p password lt salt db cache).2.1 p)
        (fun m => m.updated_at == now && m.is_locked == true
          && m.content == n.content && m.view_count == n.view_count
          && m.created_at == n.created_at)) = true ∧
    bimp ((serverRemoveLock now p pw db cache).1.status == 200)
      (noteObsB (dbGet (serverRemoveLock now p pw db cache).2.1 p)
        (fun m => m.updated_at == now && m.is_locked == false
          && m.lock_type.isNone && m.password_hash.isNone
          && m.content == n.content && m.view_count == n.view_count
          && m.created_at == n.created_at)) = true ∧
    bimp ((serverSaveNote minLength maxLength now p content password db cache).1.status == 200)
      (noteObsB (dbGet (serverSaveNote minLength maxLength now p content password db cache).2.1 p)
        (fun m => m.updated_at == now && m.content == content
          && m.is_locked == n.is_locked && m.lock_type == n.lock_type
          && m.password_hash == n.password_hash
          && m.view_count == n.view_count && m.created_at == n.created_at)) = true ∧
    bimp ((workerSaveNote minLength maxLength now p content password db cache).1.status == 200)
      (noteObsB (dbGet (workerSaveNote minLength maxLength now p content password db cache).2.1 p)
        (fun m => m.updated_at == now && m.content == content
          && m.is_locked == n.is_locked && m.lock_type == n.lock_type
          && m.password_hash == n.password_hash
          && m.view_count == n.view_count && m.created_at == n.created_at)) = true ∧
    bimp ((workerLockNote p password lt salt db cache).1.status == 200)
      (noteObsB (dbGet (workerLockNote p password lt salt db cache).2.1 p)
        (fun m => m.updated_at == n.updated_at && m.is_locked == true
          && m.content == n.content && m.view_count == n.view_count
          && m.created_at == n.created_at)) = true ∧
    bimp ((workerRemoveLock p pw db cache).1.status == 200)
      (noteObsB (dbGet (workerRemoveLock p pw db cache).2.1 p)
        (fun m => m.updated_at == n.updated_at && m.is_locked == false
          && m.lock_type.isNone && m.password_hash.isNone
          && m.content == n.content && m.view_count == n.view_count
          && m.created_at == n.created_at)) = true := by
  refine ⟨?_, ?_, ?_, ?_, ?_, ?_⟩
  · unfold serverLockNote
    rw [hrow]
    repeat' split
    all_goals try contradiction
    all_goals
      first
        | (simp [bimp, errResp]; done)
        | (simp only [bimp, okResp]
           rw [dbGet_sDbSetLock, hrow]
           have hp : n.path = p := by simpa using dbGet_path_beq hrow
           simp [noteObsB, hp]
           done)
        | simp_all
  · unfold serverRemoveLock
    rw [hrow]
    repeat' split
    all_goals try contradiction
    all_goals
      first
        | (simp [bimp, errResp]; done)
        | (simp only [bimp, okResp]
           rw [dbGet_sDbClearLock, hrow]
           have hp : n.path = p := by simpa using dbGet_path_beq hrow
           simp [noteObsB, hp]
           done)
        | simp_all
  · unfold serverSaveNote
    rw [hrow]
    repeat' split
    all_goals try contradiction
    all_goals
      first
        | (simp [bimp, errResp]; done)
        | (simp only [bimp, okResp]
           rw [dbGet_dbUpdateContent, hrow]
           have hp : n.path = p := by simpa using dbGet_path_beq hrow
           simp [noteObsB, hp]
           done)
        | simp_all
  · unfold workerSaveNote workerSaveCommit
    rw [hrow]
    repeat' split
    all_goals try contradiction
    all_goals
      first
        | (simp [bimp, errResp]; done)
        | (simp only [bimp, okResp]
           rw [dbGet_dbUpdateContent, hrow]
           have hp : n.path = p := by simpa using dbGet_path_beq hrow
           simp [noteObsB, hp]
           done)
        | simp_all
  · unfold workerLockNote
    rw [hrow]
    repeat' split
    all_goals try contradiction
    all_goals
      first
        | (simp [bimp, errResp]; done)
        | (simp only [bimp, okResp]
           rw [dbGet_dbSetLock, hrow]
           have hp : n.path = p := by simpa using dbGet_path_beq hrow
           simp [noteObsB, hp]
           done)
        | simp_all
  · unfold workerRemoveLock
    rw [hrow]
    repeat' split
    all_goals try contradiction
    all_goals
      first
        | (simp [bimp, errResp]; done)
        | (simp only [bimp, okResp]
           rw [dbGet_dbClearLock, hrow]
           have hp : n.path = p := by simpa using dbGet_path_beq hrow
           simp [noteObsB, hp]
           done)
        | simp_all

/-- Witness for `c8_updated_at_refresh` at a concrete server lock. -/
theorem c8_updated_at_refresh_witness :
    dbGet [({ path := "ab", content := "c", is_locked := false,
              lock_type := none, password_hash := none, view_count := 0,
              created_at := 1, updated_at := 5 } : Note)] "ab" =
      some { path := "ab", content := "c", is_locked := false,
             lock_type := none, password_hash := none, view_count := 0,
             created_at := 1, updated_at := 5 } ∧
    bimp ((serverLockNote 9 "ab" (some "pw") (some LockType.write) "s"
        [({ path := "ab", content := "c", is_locked := false,
            lock_type := none, password_hash := none, view_count := 0,
            created_at := 1, updated_at := 5 } : Note)] emptyCache).1.status == 200)
      (noteObsB (dbGet (serverLockNote 9 "ab" (some "pw") (some LockType.write) "s"
          [({ path := "ab", content := "c", is_locked := false,
              lock_type := none, password_hash := none, view_count := 0,
              created_at := 1, updated_at := 5 } : Note)] emptyCache).2.1 "ab")
        (fun m => m.updated_at == 9 && m.is_locked == true
          && m.content == "c" && m.view_count == 0
          && m.created_at == 1)) = true :=
  ⟨rfl,
   (c8_updated_at_refresh 1 4 9 "ab" "x" "s" "pw" (some "pw")
      (some LockType.write)
      [({ path := "ab", content := "c", is_locked := false,
          lock_type := none, password_hash := none, view_count := 0,
          created_at := 1, updated_at := 5 } : Note)] emptyCache
      { path := "ab", content := "c", is_locked := false,
        lock_type := none, password_hash := none, view_count := 0,
        created_at := 1, updated_at := 5 }
      rfl).1⟩

/-- C9 counterexample: in the worker GET route the `CACHE.get` await
sits inside the handler's `try/catch`, so a failing cache backend turns
the request into a 500 `Database error` instead of degrading to a cache
miss (the same request with a healthy cache answers 200). -/
theorem c9_worker_cache_failure_surfaces_500 :
    (workerGetNote 1 4 "ab" [] { emptyCache with failGet := true }).1.status = 500 ∧
    (workerGetNote 1 4 "ab" [] emptyCache).1.status = 200 := by
  decide

/-- C5 (amended): the invariant `is_locked = false ⇔ lock_type absent
⇔ password_hash absent` is preserved by every public note operation of
both variants — save, lock, unlock, remove-lock and GET (the admin import
and admin update paths, shown broken by the counterexample, are excluded). -/
theorem c5_public_ops_preserve_lock_invariant
    (minLength maxLength now : Nat) (p content salt pw : String)
    (password : Option String) (lt : Option LockType)
    (db : Db) (cache : CacheState)
    (hinv : dbInvB db = true) :
    dbInvB (workerSaveNote minLength maxLength now p content password db cache).2.1 = true ∧
    dbInvB (serverSaveNote minLength maxLength now p content password db cache).2.1 = true ∧
    dbInvB (workerLockNote p password lt salt db cache).2.1 = true ∧
    dbInvB (serverLockNote now p password lt salt db cache).2.1 = true ∧
    dbInvB (workerUnlockNote p pw db cache).2.1 = true ∧
    dbInvB (serverUnlockNote p pw db cache).2.1 = true ∧
    dbInvB (workerRemoveLock p pw db cache).2.1 = true ∧
    dbInvB (serverRemoveLock now p pw db cache).2.1 = true ∧
    dbInvB (workerGetNote minLength maxLength p db cache).2.1 = true ∧
    dbInvB (serverGetNote minLength maxLength now p db cache).2.1 = true := by
  refine ⟨?_, ?_, ?_, ?_, ?_, ?_, ?_, ?_, ?_, ?_⟩
  · unfold workerSaveNote workerSaveCommit
    repeat' split
    all_goals simp [dbInvB_dbUpdateContent, dbInvB_dbInsert, hinv]
  · unfold serverSaveNote
    repeat' split
    all_goals simp [dbInvB_dbUpdateContent, dbInvB_dbInsert, hinv]
  · unfold workerLockNote
    repeat' split
    all_goals simp [dbInvB_dbSetLock, hinv]
  · unfold serverLockNote
    repeat' split
    all_goals simp [dbInvB_sDbSetLock, hinv]
  · unfold workerUnlockNote
    repeat' split
    all_goals simp [hinv]
  · unfold serverUnlockNote
    repeat' split
    all_goals simp [hinv]
  · unfold workerRemoveLock
    repeat' split
    all_goals simp [dbInvB_dbClearLock, hinv]
  · unfold serverRemoveLock
    repeat' split
    all_goals simp [dbInvB_sDbClearLock, hinv]
  · unfold workerGetNote
    repeat' split
    all_goals simp [dbInvB_dbIncViewCount, hinv]
  · unfold serverGetNote
    repeat' split
    all_goals simp [dbInvB_sDbIncViewCount, hinv]

/-- Witness for `c5_public_ops_preserve_lock_invariant` at a concrete
single-note store. -/
theorem c5_public_ops_preserve_lock_invariant_witness :
    dbInvB [({ path := "ab", content := "c", is_locked := false,
               lock_type := none, password_hash := none, view_count := 3,
               created_at := 1, updated_at := 1 } : Note)] = true ∧
    dbInvB (workerSaveNote 1 4 9 "ab" "hi" none
      [({ path := "ab", content := "c", is_locked := false,
          lock_type := none, password_hash := none, view_count := 3,
          created_at := 1, updated_at := 1 } : Note)] emptyCache).2.1 = true :=
  ⟨by decide,
   (c5_public_ops_preserve_lock_invariant 1 4 9 "ab" "hi" "s" "pw" none
      (some LockType.read) _ emptyCache (by decide)).1⟩

/-- C9 (amended): in the server variant a cache-layer failure is never
surfaced: for every note operation, the response and the resulting note
table under an arbitrarily failing cache backend equal those under a
healthy cache in the degraded view (entries emptied when `get` fails —
i.e. the failure behaves as a miss; `put`/`delete` failures behave as
no-ops).  The worker variant, per the counterexample, surfaces a failing
cache `get` as a 500 response. -/
theorem c9_server_cache_failure_degrades
    (minLength maxLength now : Nat) (p content pw salt : String)
    (password : Option String) (lt : Option LockType) (db : Db)
    (e : List (String × JObj × Nat)) (fg fp fd : Bool) :
    ((serverGetNote minLength maxLength now p db ⟨e, fg, fp, fd⟩).1 =
       (serverGetNote minLength maxLength now p db
         ⟨if fg then [] else e, false, false, false⟩).1 ∧
     (serverGetNote minLength maxLength now p db ⟨e, fg, fp, fd⟩).2.1 =
       (serverGetNote minLength maxLength now p db
         ⟨if fg then [] else e, false, false, false⟩).2.1) ∧
    ((serverSaveNote minLength maxLength now p content password db ⟨e, fg, fp, fd⟩).1 =
       (serverSaveNote minLength maxLength now p content password db
         ⟨if fg then [] else e, false, false, false⟩).1 ∧
     (serverSaveNote minLength maxLength now p content password db ⟨e, fg, fp, fd⟩).2.1 =
       (serverSaveNote minLength maxLength now p content password db
         ⟨if fg then [] else e, false, false, false⟩).2.1) ∧
    ((serverUnlockNote p pw db ⟨e, fg, fp, fd⟩).1 =
       (serverUnlockNote p pw db ⟨if fg then [] else e, false, false, false⟩).1 ∧
     (serverUnlockNote p pw db ⟨e, fg, fp, fd⟩).2.1 =
       (serverUnlockNote p pw db ⟨if fg then [] else e, false, false, false⟩).2.1) ∧
    ((serverLockNote now p password lt salt db ⟨e, fg, fp, fd⟩).1 =
       (serverLockNote now p password lt salt db
         ⟨if fg then [] else e, false, false, false⟩).1 ∧
     (serverLockNote now p password lt salt db ⟨e, fg, fp, fd⟩).2.1 =
       (serverLockNote now p password lt salt db
         ⟨if fg then [] else e, false, false, false⟩).2.1) ∧
    ((serverRemoveLock now p pw db ⟨e, fg, fp, fd⟩).1 =
       (serverRemoveLock now p pw db ⟨if fg then [] else e, false, false, false⟩).1 ∧
     (serverRemoveLock now p pw db ⟨e, fg, fp, fd⟩).2.1 =
       (serverRemoveLock now p pw db ⟨if fg then [] else e, false, false, false⟩).2.1) := by
  have hget : KVStore.get ⟨e, fg, fp, fd⟩ ("note:" ++ p) =
      KVStore.get ⟨if fg then [] else e, false, false, false⟩ ("note:" ++ p) := by
    cases fg <;> simp [KVStore.get, kvGetRaw, kvLookup]
  refine ⟨⟨?_, ?_⟩, ⟨?_, ?_⟩, ⟨?_, ?_⟩, ⟨?_, ?_⟩, ⟨?_, ?_⟩⟩
  all_goals
    first
      | (unfold serverGetNote
         rw [hget]
         repeat' split
         all_goals rfl)
      | (first
           | unfold serverSaveNote
           | unfold serverUnlockNote
           | unfold serverLockNote
           | unfold serverRemoveLock
         repeat' split
         all_goals rfl)

/-- C10: claimed — the blob store's key-to-file mapping neutralizes
traversal-unsafe characters so the physical path always stays inside the
storage base directory.  `R2Storage.getFilePath` only replaces characters
outside `[a-zA-Z0-9-_./]`, keeping `.` and `/`, so the key `../secret`
passes through unchanged and `path.join` resolves it to a file outside the
base directory. -/
theorem c10_traversal_escapes_base :
    sanitizeKey "../secret" = "../secret" ∧
    getFilePath "/data/storage" "../secret" = "/data/secret" ∧
    insideBase "/data/storage" (getFilePath "/data/storage" "../secret") = false := by
  decide

end CloudNote
